import Mathlib

/- Verification of the bevy_space_program experiment prototypes.

   The development shallowly embeds the original branch logic of the three
   experiment executables: the cursor-nearest target selection loops, the
   target-object reticle visibility computation, the Enter-key targeting,
   the Escape / left-click cursor handling, the HUD speed formatting, the
   camera zoom clamping of experiment_001, and the floating-origin grid
   bookkeeping.  Machine floats are modelled by exact rationals: every
   claim settled here is about the branch structure of the code (which
   comparisons are made and which branch is taken), not about float
   rounding.  Euclidean lengths of 2-D vectors are irrational in general,
   so wherever the source compares Vec2 lengths the length value is
   carried as data next to the point it belongs to. -/

/-- A 2-D vector with rational coordinates; models bevy Vec2 for the branch
logic of the overlay systems. -/
structure Vec2 where
  x : ℚ
  y : ℚ
deriving DecidableEq, Repr

/-- A 3-D vector with rational coordinates; models bevy Vec3 and DVec3. -/
structure Vec3q where
  x : ℚ
  y : ℚ
  z : ℚ
deriving DecidableEq, Repr

/-- The bevy Visibility component values. -/
inductive Visibility where
  | Visible
  | Hidden
  | Inherited
deriving DecidableEq, Repr

/-- bevy Rect: an axis-aligned rectangle given by its two corners. -/
structure Rect where
  min : Vec2
  max : Vec2
deriving DecidableEq, Repr

/-- bevy Rect.contains: inclusive membership test against both corners. -/
def Rect.contains (r : Rect) (p : Vec2) : Bool :=
  decide (r.min.x ≤ p.x) && decide (p.x ≤ r.max.x) &&
    decide (r.min.y ≤ p.y) && decide (p.y ≤ r.max.y)

/-- bevy window CursorGrabMode. -/
inductive CursorGrabMode where
  | None
  | Confined
  | Locked
deriving DecidableEq, Repr

/-- The cursor state of the primary window: grab mode and visibility. -/
structure WindowCursorState where
  grab_mode : CursorGrabMode
  visible : Bool
deriving DecidableEq, Repr

/-- Everything the Escape / left-click handling writes: whether AppExit was
sent, the new window cursor state, and CameraInput.defaults_disabled. -/
structure InputHandlingOut where
  exit_sent : Bool
  cursor : WindowCursorState
  defaults_disabled : Bool
deriving DecidableEq, Repr

/-- The 2-D overlay position of a projected candidate together with the
Euclidean length of that position (its distance to the screen centre,
which is where the cursor sits).  The source compares Vec2::length values;
the square root of a rational is not rational, so the length is carried as
data beside the point instead of being recomputed from it. -/
structure OverlayPoint where
  pos : Vec2
  len : ℚ
deriving DecidableEq, Repr

/-- One ValidTarget candidate as seen by the overlay systems of
experiments 002 and 003: its entity id, the result of
camera_3d.world_to_viewport at its world translation, the result of
camera_2d.viewport_to_world_2d at that viewport position (with its
length), and its ComponentInfo size (only experiment_003 reads it). -/
structure Candidate where
  entity : ℕ
  world_to_viewport : Option Vec2
  overlay : Option OverlayPoint
  size : ℚ
deriving DecidableEq, Repr

/-- Both selection loops start from cursor_nearest = Vec2(1e7, 1e7), whose
length is the irrational 1e7 * sqrt 2; it is modelled by the rational
below.  Any actually projected screen position has a far smaller length,
and none of the proved statements depends on the exact value. -/
def cursor_nearest_initial_len : ℚ := 1414213562373095 / 100000000

/-- The initial cursor_nearest point of both selection loops. -/
def cursor_nearest_initial : Vec2 := ⟨10000000, 10000000⟩

/-- The HUD speed readout of both experiments: whether the value is shown
as a multiple of the speed of light, and the number actually displayed. -/
structure SpeedText where
  light_units : Bool
  displayed : ℚ
deriving DecidableEq, Repr

/-- The kind of an object spawned during setup, named after what the
source calls it (component markers, ComponentInfo names, comments). -/
inductive SpawnKind where
  | planet
  | star
  | satellite
  | commandPod
  | torusLink
  | light
  | marker
deriving DecidableEq, Repr

/-- One object spawned during an experiment setup phase. -/
structure SpawnedObject where
  name : String
  kind : SpawnKind
deriving DecidableEq, Repr

namespace big_space

/-- Modelled from the spec: the floating-origin plugin (the third-party
big_space crate, absent from src/) keeps large-world positions as a 64-bit
integer grid cell plus a local float-precision offset. -/
structure GridCell where
  x : ℤ
  y : ℤ
  z : ℤ
deriving DecidableEq, Repr

/-- Modelled from the spec: the default edge length of the root reference
frame grid of the plugin; its exact value is immaterial to the proofs. -/
def cell_edge_length : ℚ := 2000

/-- Modelled from the spec: splitting a world translation into a 64-bit
grid cell (the nearest cell along each axis) and the local offset that
remains after subtracting the cell origin. -/
def translation_to_grid (edge : ℚ) (t : Vec3q) : GridCell × Vec3q :=
  let cx : ℤ := round (t.x / edge)
  let cy : ℤ := round (t.y / edge)
  let cz : ℤ := round (t.z / edge)
  (⟨cx, cy, cz⟩, ⟨t.x - cx * edge, t.y - cy * edge, t.z - cz * edge⟩)

/-- Modelled from the spec: the f32 variant of the split; the exact-
rational model makes it identical to translation_to_grid. -/
def imprecise_translation_to_grid (edge : ℚ) (t : Vec3q) : GridCell × Vec3q :=
  translation_to_grid edge t

/-- Modelled from the spec: recombination of a grid cell and a local
offset into one (double precision) world position. -/
def grid_position_double (edge : ℚ) (cell : GridCell) (translation : Vec3q) : Vec3q :=
  ⟨cell.x * edge + translation.x, cell.y * edge + translation.y, cell.z * edge + translation.z⟩

end big_space

namespace experiment_001

/-- src/bin/experiment_001/main.rs line 8. -/
def CAMERA_ZOOM_SPEED : ℚ := 11 / 10

/-- The exact rational value of the f32 constant PI used by
experiment_001 (13176795 * 2 ^ (-22)). -/
def PI : ℚ := 13176795 / 4194304

/-- src/bin/experiment_001/main.rs line 9: PI / 2, the largest allowed fov. -/
def CAMERA_ZOOM_MINIMUM : ℚ := PI / 2

/-- src/bin/experiment_001/main.rs line 10: PI / 1000, the smallest allowed fov. -/
def CAMERA_ZOOM_MAXIMUM : ℚ := PI / 1000

/-- The zoom input part of one mouse-wheel event in camera_controls:
divide the fov by CAMERA_ZOOM_SPEED when scrolling up, multiply when
scrolling down. -/
def fov_zoom_input (y fov : ℚ) : ℚ :=
  let d := if y > 0 then fov / CAMERA_ZOOM_SPEED else fov
  if y < 0 then d * CAMERA_ZOOM_SPEED else d

/-- The clamping part of one mouse-wheel event in camera_controls: cap the
desired fov at CAMERA_ZOOM_MINIMUM from above and CAMERA_ZOOM_MAXIMUM
from below, in that order. -/
def fov_zoom_clamp (desired : ℚ) : ℚ :=
  let d := if desired > CAMERA_ZOOM_MINIMUM then CAMERA_ZOOM_MINIMUM else desired
  if d < CAMERA_ZOOM_MAXIMUM then CAMERA_ZOOM_MAXIMUM else d

/-- The full effect of one mouse-wheel event on the perspective fov. -/
def fov_after_wheel_event (y fov : ℚ) : ℚ :=
  fov_zoom_clamp (fov_zoom_input y fov)

/-- Modelled from the spec: the engine default perspective fov is PI / 4;
the default comes from the engine crate, which is absent from src/. -/
def default_fov : ℚ := PI / 4

/-- The effect of one run of camera_controls on the perspective fov: the
middle mouse button resets it to PI / 4 first, then every mouse-wheel
event of the frame is applied in order.  The remaining branches of
camera_controls do not write the fov. -/
def camera_controls_fov (middle_pressed : Bool) (wheel_events : List ℚ) (fov : ℚ) : ℚ :=
  wheel_events.foldl (fun f y => fov_after_wheel_event y f) (if middle_pressed then PI / 4 else fov)

/-- The scene objects spawned by initiate_spawning (plus the directional
light): the Earth, the command pod, and a chain of one hundred torus
links. -/
def initiate_spawning_objects : List SpawnedObject :=
  ⟨"Directional Light", .light⟩ :: ⟨"Earth", .planet⟩ :: ⟨"Command Pod", .commandPod⟩ ::
    List.replicate 100 ⟨"Torus", .torusLink⟩

end experiment_001

namespace experiment_002

/-- The running state of the cursor-nearest selection loop of
update_hud_reticles. -/
structure SelState where
  cursor_target_onscreen : Bool
  cursor_nearest : Vec2
  cursor_nearest_len : ℚ
  cursor_nearest_entity : Option ℕ
deriving DecidableEq, Repr

/-- One iteration of the loop over valid_targets_query in
update_hud_reticles: a candidate that projects through both cameras and
whose 2-D overlay position is strictly shorter than the current nearest
becomes the new nearest. -/
def cursor_nearest_step (s : SelState) (c : Candidate) : SelState :=
  match c.world_to_viewport with
  | none => s
  | some _ =>
    match c.overlay with
    | none => s
    | some p =>
      if p.len < s.cursor_nearest_len then
        { cursor_target_onscreen := true
          cursor_nearest := p.pos
          cursor_nearest_len := p.len
          cursor_nearest_entity := some c.entity }
      else s

/-- The cursor-nearest selection loop of update_hud_reticles, run over the
per-frame collection of ValidTarget candidates. -/
def update_hud_reticles_cursor_nearest (cs : List Candidate) : SelState :=
  cs.foldl cursor_nearest_step
    { cursor_target_onscreen := false
      cursor_nearest := cursor_nearest_initial
      cursor_nearest_len := cursor_nearest_initial_len
      cursor_nearest_entity := none }

/-- What the target-object crosshair branch writes: the visibility and,
when assigned, the new reticle translation (none = left unchanged). -/
structure TargetReticleOut where
  visibility : Visibility
  translation : Option Vec2
deriving DecidableEq, Repr

/-- The target-object crosshair branch of update_hud_reticles for a set
target whose transform resolved, as a function of the results of
camera_3d.world_to_viewport, the viewport rect test, and
camera_2d.viewport_to_world_2d. -/
def update_hud_reticles_target_reticle (rect : Rect) (w2v : Option Vec2) (v2w : Option Vec2) :
    TargetReticleOut :=
  match w2v with
  | some vp =>
    match rect.contains vp, v2w with
    | true, some op => { visibility := .Visible, translation := some op }
    | false, some _ => { visibility := .Hidden, translation := none }
    | true, none => { visibility := .Visible, translation := none }
    | false, none => { visibility := .Hidden, translation := none }
  | none => { visibility := .Hidden, translation := none }

/-- The two navigation target modes of experiment_002. -/
inductive NavTargetMode where
  | Nearest
  | Cursor
deriving DecidableEq, Repr

/-- The Enter-key targeting at the end of update_hud_reticles.  The system
returns early, leaving the target unchanged, when the 2-D camera reports
no logical viewport rect or when the engine-reported nearest object is
missing or its transform does not resolve (both folded into
nearest = none). -/
def update_hud_reticles_new_target (rect : Option Rect) (nearest : Option ℕ)
    (mode : NavTargetMode) (enter_just_pressed : Bool)
    (cursor_nearest_entity old : Option ℕ) : Option ℕ :=
  match rect with
  | none => old
  | some _ =>
    match nearest with
    | none => old
    | some n =>
      if enter_just_pressed then
        match mode with
        | .Nearest => some n
        | .Cursor => cursor_nearest_entity
      else old

/-- The left-click and Escape branches of miscellaneous_input_handling;
the remaining branches (timestep keys, nav command entry) do not touch the
cursor, AppExit, or CameraInput. -/
def miscellaneous_input_handling_cursor (left_just_pressed escape_just_pressed : Bool)
    (w : WindowCursorState) (defaults_disabled : Bool) : InputHandlingOut :=
  let w1 := if left_just_pressed then { grab_mode := .Locked, visible := false } else w
  let dd := if left_just_pressed then false else defaults_disabled
  if escape_just_pressed then
    { exit_sent := decide (w1.grab_mode = CursorGrabMode.None)
      cursor := { grab_mode := .None, visible := true }
      defaults_disabled := true }
  else
    { exit_sent := false, cursor := w1, defaults_disabled := dd }

/-- The speed readout of update_ui_text: the speed is the length of the
camera controller velocity divided by the frame delta seconds, shown as a
multiple of the speed of light when above 3.0e8 and in m/s otherwise.
The velocity length is carried as data (its square root is irrational). -/
def update_ui_text_speed_text (velocity_length delta_seconds : ℚ) : SpeedText :=
  let speed := velocity_length / delta_seconds
  if speed > 300000000 then { light_units := true, displayed := speed / 300000000 }
  else { light_units := false, displayed := speed }

/-- The combined floating-origin position shown by update_ui_text:
reference_frame.grid_position_double applied to the floating origin entity
current grid cell and local transform translation. -/
def update_ui_text_real_position (cell : big_space.GridCell) (translation : Vec3q) : Vec3q :=
  big_space.grid_position_double big_space.cell_edge_length cell translation

/-- The large-world spawns of main_camera_setup and general_setup with
their intended world translations, each split through
imprecise_translation_to_grid in the source. -/
def grid_spawns : List (String × Vec3q) :=
  [("Main Camera", ⟨200, 0, 0⟩),
   ("Jupiter", ⟨0, 0, 0⟩),
   ("CubeSat (moving)", ⟨-190, 3, 0⟩),
   ("CubeSat (stationary)", ⟨-190, 3, 0⟩)]

/-- The cell and local offset actually stored for each large-world spawn. -/
def grid_spawned (edge : ℚ) : List (String × (big_space.GridCell × Vec3q)) :=
  grid_spawns.map (fun e => (e.1, big_space.translation_to_grid edge e.2))

/-- The scene objects spawned by general_setup (UI cameras and reticles
aside): the planet Jupiter, two cube satellites, and the two directional
lights. -/
def general_setup_objects : List SpawnedObject :=
  [⟨"Jupiter", .planet⟩,
   ⟨"CubeSat (moving)", .satellite⟩,
   ⟨"CubeSat (stationary)", .satellite⟩,
   ⟨"Orthographic Light", .light⟩,
   ⟨"Perspective Light", .light⟩]

end experiment_002

namespace experiment_003

/-- The running state of the cursor-nearest selection loop of
update_targeting_overlay: experiment_003 additionally tracks the size of
the current nearest candidate. -/
structure SelState where
  cursor_target_onscreen : Bool
  cursor_nearest : Vec2
  cursor_nearest_len : ℚ
  cursor_nearest_entity : Option ℕ
  cursor_nearest_size : ℚ
deriving DecidableEq, Repr

/-- One iteration of the loop over valid_targets_query in
update_targeting_overlay: a strictly closer candidate becomes the new
nearest, except that a candidate closer by less than 3.0 replaces the
current nearest only when its size is larger. -/
def cursor_nearest_step (s : SelState) (c : Candidate) : SelState :=
  match c.world_to_viewport with
  | none => s
  | some _ =>
    match c.overlay with
    | none => s
    | some p =>
      let length_difference := p.len - s.cursor_nearest_len
      if length_difference < 0 then
        if length_difference > -3 then
          if c.size > s.cursor_nearest_size then
            { cursor_target_onscreen := true
              cursor_nearest := p.pos
              cursor_nearest_len := p.len
              cursor_nearest_entity := some c.entity
              cursor_nearest_size := c.size }
          else s
        else
          { cursor_target_onscreen := true
            cursor_nearest := p.pos
            cursor_nearest_len := p.len
            cursor_nearest_entity := some c.entity
            cursor_nearest_size := c.size }
      else s

/-- The cursor-nearest selection loop of update_targeting_overlay, run
over the per-frame collection of ValidTarget candidates. -/
def update_targeting_overlay_cursor_nearest (cs : List Candidate) : SelState :=
  cs.foldl cursor_nearest_step
    { cursor_target_onscreen := false
      cursor_nearest := cursor_nearest_initial
      cursor_nearest_len := cursor_nearest_initial_len
      cursor_nearest_entity := none
      cursor_nearest_size := 0 }

/-- What the target-object reticle branch of update_targeting_overlay
writes: the reticle and label visibilities, the reticle translation when
assigned (none = left unchanged), and the label position (the viewport
position shifted by 15 in both axes) when assigned. -/
structure TargetReticleOut where
  target_visibility : Visibility
  label_visibility : Visibility
  translation : Option Vec2
  label_position : Option Vec2
deriving DecidableEq, Repr

/-- The target-object reticle branch of update_targeting_overlay for a
set target whose transform resolved, as a function of the results of
camera_3d.world_to_viewport, the viewport rect test, and
camera_2d.viewport_to_world_2d. -/
def update_targeting_overlay_target_reticle (rect : Rect) (w2v : Option Vec2)
    (v2w : Option Vec2) : TargetReticleOut :=
  match w2v with
  | some vp =>
    match rect.contains vp, v2w with
    | true, some op =>
      { target_visibility := .Visible
        label_visibility := .Visible
        translation := some op
        label_position := some ⟨vp.x + 15, vp.y + 15⟩ }
    | false, some _ =>
      { target_visibility := .Hidden, label_visibility := .Hidden
        translation := none, label_position := none }
    | true, none =>
      { target_visibility := .Hidden, label_visibility := .Hidden
        translation := none, label_position := none }
    | false, none =>
      { target_visibility := .Hidden, label_visibility := .Hidden
        translation := none, label_position := none }
  | none =>
    { target_visibility := .Hidden, label_visibility := .Hidden
      translation := none, label_position := none }

/-- The Enter-key targeting at the end of update_targeting_overlay.  The
system returns early, leaving the target unchanged, when the 2-D camera
reports no logical viewport rect. -/
def update_targeting_overlay_new_target (rect : Option Rect) (enter_just_pressed : Bool)
    (cursor_nearest_entity old : Option ℕ) : Option ℕ :=
  match rect with
  | none => old
  | some _ => if enter_just_pressed then cursor_nearest_entity else old

/-- The tracking readout of ui_text_update: with a set target the name
comes from its ComponentInfo (staying "none" when the component lookup
fails); with no target the system executes todo!(), which panics, modelled
as an error result. -/
def ui_text_update_tracking (target : Option ℕ) (component_info : ℕ → Option String) :
    Except Unit String :=
  match target with
  | some e =>
    match component_info e with
    | some name => .ok name
    | none => .ok "none"
  | none => .error ()

/-- The target match of focus_on_target: with no target the system
executes todo!(), which panics, modelled as an error result; the rotation
arithmetic of the Some branch is irrelevant to the claims and is not
modelled. -/
def focus_on_target_step (target : Option ℕ) : Except Unit Unit :=
  match target with
  | some _ => .ok ()
  | none => .error ()

/-- The speed readout of ui_text_update, identical in structure to the
one of experiment_002. -/
def ui_text_update_speed_text (velocity_length delta_seconds : ℚ) : SpeedText :=
  let speed := velocity_length / delta_seconds
  if speed > 300000000 then { light_units := true, displayed := speed / 300000000 }
  else { light_units := false, displayed := speed }

/-- The left-click and Escape branches of input_handling; the remaining
branch (the F key automation toggle) does not touch the cursor, AppExit,
or CameraInput. -/
def input_handling_cursor (left_just_pressed escape_just_pressed : Bool)
    (w : WindowCursorState) (defaults_disabled : Bool) : InputHandlingOut :=
  let w1 := if left_just_pressed then { grab_mode := .Locked, visible := false } else w
  let dd := if left_just_pressed then false else defaults_disabled
  if escape_just_pressed then
    { exit_sent := decide (w1.grab_mode = CursorGrabMode.None)
      cursor := { grab_mode := .None, visible := true }
      defaults_disabled := true }
  else
    { exit_sent := false, cursor := w1, defaults_disabled := dd }

/-- The large-world spawns of setup with their intended world
translations (orbit radii along Z, the camera and starting location at
twenty solar radii, Proxima Centauri at 4.017e16 m), each split through
translation_to_grid or imprecise_translation_to_grid in the source. -/
def setup_grid_spawns : List (String × Vec3q) :=
  [("Mercury", ⟨0, 0, 57910000000⟩),
   ("Venus", ⟨0, 0, 108210000000⟩),
   ("Earth", ⟨0, 0, 149600000000⟩),
   ("Mars", ⟨0, 0, 228600000000⟩),
   ("Jupiter", ⟨0, 0, 778479000000⟩),
   ("Saturn", ⟨0, 0, 1433525000000⟩),
   ("Uranus", ⟨0, 0, 2870975000000⟩),
   ("Neptune", ⟨0, 0, 4500000000000⟩),
   ("Camera", ⟨0, 0, 13910161000⟩),
   ("Starting Location", ⟨0, 0, 13910160000⟩),
   ("Proxima Centauri", ⟨0, 0, 40170000000000000⟩)]

/-- The cell and local offset actually stored for each large-world spawn. -/
def setup_grid_spawned (edge : ℚ) : List (String × (big_space.GridCell × Vec3q)) :=
  setup_grid_spawns.map (fun e => (e.1, big_space.translation_to_grid edge e.2))

/-- The scene objects spawned by setup: the Sun, the eight planets,
the Saturn ring disc, the purple starting-location ball, and Proxima
Centauri. -/
def setup_objects : List SpawnedObject :=
  [⟨"Sun", .star⟩,
   ⟨"Mercury", .planet⟩,
   ⟨"Venus", .planet⟩,
   ⟨"Earth", .planet⟩,
   ⟨"Mars", .planet⟩,
   ⟨"Jupiter", .planet⟩,
   ⟨"Saturn", .planet⟩,
   ⟨"Saturn Rings", .marker⟩,
   ⟨"Uranus", .planet⟩,
   ⟨"Neptune", .planet⟩,
   ⟨"Starting Location", .marker⟩,
   ⟨"Proxima Centauri", .star⟩]

end experiment_003

/- Helper lemmas about the selection loops, shared by several claims. -/

lemma step002_len_le (s : experiment_002.SelState) (c : Candidate) :
    (experiment_002.cursor_nearest_step s c).cursor_nearest_len ≤ s.cursor_nearest_len := by
  rcases hw : c.world_to_viewport with _ | vp
  · simp [experiment_002.cursor_nearest_step, hw]
  · rcases ho : c.overlay with _ | p
    · simp [experiment_002.cursor_nearest_step, hw, ho]
    · by_cases h : p.len < s.cursor_nearest_len
      · simp only [experiment_002.cursor_nearest_step, hw, ho, if_pos h]
        exact h.le
      · simp only [experiment_002.cursor_nearest_step, hw, ho, if_neg h]
        exact le_refl _

lemma foldl002_len_le (cs : List Candidate) (s : experiment_002.SelState) :
    (cs.foldl experiment_002.cursor_nearest_step s).cursor_nearest_len ≤ s.cursor_nearest_len := by
  induction cs generalizing s with
  | nil => exact le_refl _
  | cons a t ih =>
    simp only [List.foldl_cons]
    exact le_trans (ih _) (step002_len_le s a)

lemma step002_len_le_cand (s : experiment_002.SelState) (c : Candidate) (p : OverlayPoint)
    (hw : c.world_to_viewport.isSome = true) (ho : c.overlay = some p) :
    (experiment_002.cursor_nearest_step s c).cursor_nearest_len ≤ p.len := by
  rcases hw2 : c.world_to_viewport with _ | vp
  · rw [hw2] at hw
    simp at hw
  · by_cases h : p.len < s.cursor_nearest_len
    · simp only [experiment_002.cursor_nearest_step, hw2, ho, if_pos h]
      exact le_refl _
    · simp only [experiment_002.cursor_nearest_step, hw2, ho, if_neg h]
      exact not_lt.mp h

lemma min002 (cs : List Candidate) (c : Candidate) (p : OverlayPoint)
    (hw : c.world_to_viewport.isSome = true) (ho : c.overlay = some p) :
    ∀ s : experiment_002.SelState, c ∈ cs →
      (cs.foldl experiment_002.cursor_nearest_step s).cursor_nearest_len ≤ p.len := by
  induction cs with
  | nil =>
    intro s hc
    cases hc
  | cons a t ih =>
    intro s hc
    simp only [List.foldl_cons]
    rcases List.mem_cons.mp hc with h | h
    · subst h
      exact le_trans (foldl002_len_le t _) (step002_len_le_cand s c p hw ho)
    · exact ih _ h

lemma attains002 (cs : List Candidate) :
    ∀ s : experiment_002.SelState,
      (∃ c ∈ cs,
          (cs.foldl experiment_002.cursor_nearest_step s).cursor_nearest_entity = some c.entity ∧
          c.world_to_viewport.isSome = true ∧
          ∃ p, c.overlay = some p ∧
            (cs.foldl experiment_002.cursor_nearest_step s).cursor_nearest_len = p.len ∧
            (cs.foldl experiment_002.cursor_nearest_step s).cursor_nearest = p.pos) ∨
      cs.foldl experiment_002.cursor_nearest_step s = s := by
  induction cs with
  | nil =>
    intro s
    right
    rfl
  | cons a t ih =>
    intro s
    simp only [List.foldl_cons]
    rcases ih (experiment_002.cursor_nearest_step s a) with ⟨c, hc, hrest⟩ | heq
    · exact Or.inl ⟨c, List.mem_cons_of_mem a hc, hrest⟩
    · rw [heq]
      rcases hw : a.world_to_viewport with _ | vp
      · right
        simp [experiment_002.cursor_nearest_step, hw]
      · rcases ho : a.overlay with _ | p
        · right
          simp [experiment_002.cursor_nearest_step, hw, ho]
        · by_cases hlt : p.len < s.cursor_nearest_len
          · left
            refine ⟨a, List.mem_cons_self a t, ?_, ?_, p, ho, ?_, ?_⟩ <;>
              simp [experiment_002.cursor_nearest_step, hw, ho, hlt]
          · right
            simp [experiment_002.cursor_nearest_step, hw, ho, hlt]

lemma step003_len_le (s : experiment_003.SelState) (c : Candidate) :
    (experiment_003.cursor_nearest_step s c).cursor_nearest_len ≤ s.cursor_nearest_len := by
  rcases hw : c.world_to_viewport with _ | vp
  · simp [experiment_003.cursor_nearest_step, hw]
  · rcases ho : c.overlay with _ | p
    · simp [experiment_003.cursor_nearest_step, hw, ho]
    · by_cases h1 : p.len - s.cursor_nearest_len < 0
      · by_cases h2 : p.len - s.cursor_nearest_len > -3
        · by_cases h3 : c.size > s.cursor_nearest_size
          · simp only [experiment_003.cursor_nearest_step, hw, ho, if_pos h1, if_pos h2, if_pos h3]
            linarith
          · simp only [experiment_003.cursor_nearest_step, hw, ho, if_pos h1, if_pos h2, if_neg h3]
            exact le_refl _
        · simp only [experiment_003.cursor_nearest_step, hw, ho, if_pos h1, if_neg h2]
          linarith
      · simp only [experiment_003.cursor_nearest_step, hw, ho, if_neg h1]
        exact le_refl _

lemma foldl003_len_le (cs : List Candidate) (s : experiment_003.SelState) :
    (cs.foldl experiment_003.cursor_nearest_step s).cursor_nearest_len ≤ s.cursor_nearest_len := by
  induction cs generalizing s with
  | nil => exact le_refl _
  | cons a t ih =>
    simp only [List.foldl_cons]
    exact le_trans (ih _) (step003_len_le s a)

lemma step003_len_lt_cand (s : experiment_003.SelState) (c : Candidate) (p : OverlayPoint)
    (hw : c.world_to_viewport.isSome = true) (ho : c.overlay = some p) :
    (experiment_003.cursor_nearest_step s c).cursor_nearest_len < p.len + 3 := by
  rcases hw2 : c.world_to_viewport with _ | vp
  · rw [hw2] at hw
    simp at hw
  · by_cases h1 : p.len - s.cursor_nearest_len < 0
    · by_cases h2 : p.len - s.cursor_nearest_len > -3
      · by_cases h3 : c.size > s.cursor_nearest_size
        · simp only [experiment_003.cursor_nearest_step, hw2, ho, if_pos h1, if_pos h2, if_pos h3]
          linarith
        · simp only [experiment_003.cursor_nearest_step, hw2, ho, if_pos h1, if_pos h2, if_neg h3]
          linarith
      · simp only [experiment_003.cursor_nearest_step, hw2, ho, if_pos h1, if_neg h2]
        linarith
    · simp only [experiment_003.cursor_nearest_step, hw2, ho, if_neg h1]
      linarith

lemma lt003 (cs : List Candidate) (c : Candidate) (p : OverlayPoint)
    (hw : c.world_to_viewport.isSome = true) (ho : c.overlay = some p) :
    ∀ s : experiment_003.SelState, c ∈ cs →
      (cs.foldl experiment_003.cursor_nearest_step s).cursor_nearest_len < p.len + 3 := by
  induction cs with
  | nil =>
    intro s hc
    cases hc
  | cons a t ih =>
    intro s hc
    simp only [List.foldl_cons]
    rcases List.mem_cons.mp hc with h | h
    · subst h
      exact lt_of_le_of_lt (foldl003_len_le t _) (step003_len_lt_cand s c p hw ho)
    · exact ih _ h

lemma attains003 (cs : List Candidate) :
    ∀ s : experiment_003.SelState,
      (∃ c ∈ cs,
          (cs.foldl experiment_003.cursor_nearest_step s).cursor_nearest_entity = some c.entity ∧
          c.world_to_viewport.isSome = true ∧
          ∃ p, c.overlay = some p ∧
            (cs.foldl experiment_003.cursor_nearest_step s).cursor_nearest_len = p.len ∧
            (cs.foldl experiment_003.cursor_nearest_step s).cursor_nearest = p.pos) ∨
      cs.foldl experiment_003.cursor_nearest_step s = s := by
  induction cs with
  | nil =>
    intro s
    right
    rfl
  | cons a t ih =>
    intro s
    simp only [List.foldl_cons]
    rcases ih (experiment_003.cursor_nearest_step s a) with ⟨c, hc, hrest⟩ | heq
    · exact Or.inl ⟨c, List.mem_cons_of_mem a hc, hrest⟩
    · rw [heq]
      rcases hw : a.world_to_viewport with _ | vp
      · right
        simp [experiment_003.cursor_nearest_step, hw]
      · rcases ho : a.overlay with _ | p
        · right
          simp [experiment_003.cursor_nearest_step, hw, ho]
        · by_cases h1 : p.len - s.cursor_nearest_len < 0
          · by_cases h2 : p.len - s.cursor_nearest_len > -3
            · by_cases h3 : a.size > s.cursor_nearest_size
              · left
                refine ⟨a, List.mem_cons_self a t, ?_, ?_, p, ho, ?_, ?_⟩ <;>
                  simp [experiment_003.cursor_nearest_step, hw, ho, h1, h2, h3]
              · right
                simp [experiment_003.cursor_nearest_step, hw, ho, h1, h2, h3]
            · left
              refine ⟨a, List.mem_cons_self a t, ?_, ?_, p, ho, ?_, ?_⟩ <;>
                simp [experiment_003.cursor_nearest_step, hw, ho, h1, h2]
          · right
            simp [experiment_003.cursor_nearest_step, hw, ho, h1]

lemma foldl003_unprojected (cs : List Candidate) :
    ∀ s : experiment_003.SelState, (∀ c ∈ cs, c.world_to_viewport = none) →
      cs.foldl experiment_003.cursor_nearest_step s = s := by
  induction cs with
  | nil =>
    intro s _
    rfl
  | cons a t ih =>
    intro s h
    simp only [List.foldl_cons]
    have ha : a.world_to_viewport = none := h a (List.mem_cons_self a t)
    have hstep : experiment_003.cursor_nearest_step s a = s := by
      simp [experiment_003.cursor_nearest_step, ha]
    rw [hstep]
    exact ih s (fun c hc => h c (List.mem_cons_of_mem a hc))

lemma grid_roundtrip (edge : ℚ) (t : Vec3q) :
    big_space.grid_position_double edge (big_space.translation_to_grid edge t).1
      (big_space.translation_to_grid edge t).2 = t := by
  cases t with
  | mk x y z =>
    simp only [big_space.translation_to_grid, big_space.grid_position_double, Vec3q.mk.injEq]
    refine ⟨by ring, by ring, by ring⟩

lemma fov_zoom_clamp_mem (d : ℚ) :
    experiment_001.CAMERA_ZOOM_MAXIMUM ≤ experiment_001.fov_zoom_clamp d ∧
      experiment_001.fov_zoom_clamp d ≤ experiment_001.CAMERA_ZOOM_MINIMUM := by
  have hle : experiment_001.CAMERA_ZOOM_MAXIMUM ≤ experiment_001.CAMERA_ZOOM_MINIMUM := by
    norm_num [experiment_001.CAMERA_ZOOM_MAXIMUM, experiment_001.CAMERA_ZOOM_MINIMUM,
      experiment_001.PI]
  simp only [experiment_001.fov_zoom_clamp]
  split_ifs with h1 h2 h3
  · exact ⟨le_refl _, hle⟩
  · exact ⟨hle, le_refl _⟩
  · exact ⟨le_refl _, hle⟩
  · exact ⟨not_lt.mp h3, not_lt.mp h1⟩

lemma camera_controls_fov_foldl_mem (ws : List ℚ) :
    ∀ f : ℚ, experiment_001.CAMERA_ZOOM_MAXIMUM ≤ f →
      f ≤ experiment_001.CAMERA_ZOOM_MINIMUM →
      experiment_001.CAMERA_ZOOM_MAXIMUM ≤
          ws.foldl (fun g y => experiment_001.fov_after_wheel_event y g) f ∧
        ws.foldl (fun g y => experiment_001.fov_after_wheel_event y g) f ≤
          experiment_001.CAMERA_ZOOM_MINIMUM := by
  induction ws with
  | nil =>
    intro f h1 h2
    exact ⟨h1, h2⟩
  | cons y t ih =>
    intro f h1 h2
    simp only [List.foldl_cons]
    exact ih _ (fov_zoom_clamp_mem _).1 (fov_zoom_clamp_mem _).2

lemma update002_min (cs : List Candidate) (c : Candidate) (p : OverlayPoint)
    (hc : c ∈ cs) (hw : c.world_to_viewport.isSome = true) (ho : c.overlay = some p) :
    (experiment_002.update_hud_reticles_cursor_nearest cs).cursor_nearest_len ≤ p.len :=
  min002 cs c p hw ho _ hc

lemma update002_attains (cs : List Candidate)
    (h : (experiment_002.update_hud_reticles_cursor_nearest cs).cursor_target_onscreen = true) :
    ∃ c ∈ cs,
      (experiment_002.update_hud_reticles_cursor_nearest cs).cursor_nearest_entity
          = some c.entity ∧
      c.world_to_viewport.isSome = true ∧
      ∃ p, c.overlay = some p ∧
        (experiment_002.update_hud_reticles_cursor_nearest cs).cursor_nearest_len = p.len := by
  rcases attains002 cs ⟨false, cursor_nearest_initial, cursor_nearest_initial_len, none⟩
      with hh | hh
  · obtain ⟨c, hc, he, hw, p, hp, hl, _⟩ := hh
    exact ⟨c, hc, he, hw, p, hp, hl⟩
  · exfalso
    have h2 : (cs.foldl experiment_002.cursor_nearest_step
        ⟨false, cursor_nearest_initial, cursor_nearest_initial_len, none⟩).cursor_target_onscreen
          = true := h
    rw [hh] at h2
    exact Bool.false_ne_true h2

lemma update003_lt (cs : List Candidate) (c : Candidate) (p : OverlayPoint)
    (hc : c ∈ cs) (hw : c.world_to_viewport.isSome = true) (ho : c.overlay = some p) :
    (experiment_003.update_targeting_overlay_cursor_nearest cs).cursor_nearest_len < p.len + 3 :=
  lt003 cs c p hw ho _ hc

lemma update003_attains (cs : List Candidate)
    (h : (experiment_003.update_targeting_overlay_cursor_nearest cs).cursor_target_onscreen
        = true) :
    ∃ c ∈ cs,
      (experiment_003.update_targeting_overlay_cursor_nearest cs).cursor_nearest_entity
          = some c.entity ∧
      c.world_to_viewport.isSome = true ∧
      ∃ p, c.overlay = some p ∧
        (experiment_003.update_targeting_overlay_cursor_nearest cs).cursor_nearest_len = p.len := by
  rcases attains003 cs ⟨false, cursor_nearest_initial, cursor_nearest_initial_len, none, 0⟩
      with hh | hh
  · obtain ⟨c, hc, he, hw, p, hp, hl, _⟩ := hh
    exact ⟨c, hc, he, hw, p, hp, hl⟩
  · exfalso
    have h2 : (cs.foldl experiment_003.cursor_nearest_step
        ⟨false, cursor_nearest_initial, cursor_nearest_initial_len, none, 0⟩).cursor_target_onscreen
          = true := h
    rw [hh] at h2
    exact Bool.false_ne_true h2

lemma witness_onscreen002 :
    (experiment_002.update_hud_reticles_cursor_nearest
        [⟨2, some ⟨0, 0⟩, some ⟨⟨3, 4⟩, 5⟩, 7⟩]).cursor_target_onscreen = true := by
  norm_num [experiment_002.update_hud_reticles_cursor_nearest,
    experiment_002.cursor_nearest_step, cursor_nearest_initial_len, List.foldl]

lemma witness_onscreen003 :
    (experiment_003.update_targeting_overlay_cursor_nearest
        [⟨2, some ⟨0, 0⟩, some ⟨⟨3, 4⟩, 5⟩, 7⟩]).cursor_target_onscreen = true := by
  norm_num [experiment_003.update_targeting_overlay_cursor_nearest,
    experiment_003.cursor_nearest_step, cursor_nearest_initial_len, List.foldl]

/-- C1 (corrected): for every collection of candidates whose selection
came out onscreen, the experiment_002 loop selects a candidate (projected
through both cameras) whose 2-D overlay position has the smallest distance
to the screen centre; the experiment_003 loop also selects a projected
candidate, but because a candidate closer by less than 3.0 replaces the
current nearest only when its size is larger, the selected distance is
merely within 3.0 of every projected candidate distance, not necessarily
the smallest. -/
theorem claim_C1_amended (cs : List Candidate)
    (h2 : (experiment_002.update_hud_reticles_cursor_nearest cs).cursor_target_onscreen = true)
    (h3 : (experiment_003.update_targeting_overlay_cursor_nearest cs).cursor_target_onscreen
        = true) :
    (∃ c ∈ cs,
        (experiment_002.update_hud_reticles_cursor_nearest cs).cursor_nearest_entity
            = some c.entity ∧
        c.world_to_viewport.isSome = true ∧
        ∃ p, c.overlay = some p ∧
          (experiment_002.update_hud_reticles_cursor_nearest cs).cursor_nearest_len = p.len) ∧
    (∀ c ∈ cs, c.world_to_viewport.isSome = true →
        ∀ p, c.overlay = some p →
          (experiment_002.update_hud_reticles_cursor_nearest cs).cursor_nearest_len ≤ p.len) ∧
    (∃ c ∈ cs,
        (experiment_003.update_targeting_overlay_cursor_nearest cs).cursor_nearest_entity
            = some c.entity ∧
        c.world_to_viewport.isSome = true ∧
        ∃ p, c.overlay = some p ∧
          (experiment_003.update_targeting_overlay_cursor_nearest cs).cursor_nearest_len
            = p.len) ∧
    (∀ c ∈ cs, c.world_to_viewport.isSome = true →
        ∀ p, c.overlay = some p →
          (experiment_003.update_targeting_overlay_cursor_nearest cs).cursor_nearest_len
            < p.len + 3) := by
  refine ⟨update002_attains cs h2, ?_, update003_attains cs h3, ?_⟩
  · intro c hc hw p hp
    exact update002_min cs c p hc hw hp
  · intro c hc hw p hp
    exact update003_lt cs c p hc hw hp

/-- Witness for C1 at the one-candidate collection with overlay position
(3, 4) of length 5: both loops select it. -/
theorem claim_C1_witness :
    (∃ c ∈ [(⟨2, some ⟨0, 0⟩, some ⟨⟨3, 4⟩, 5⟩, 7⟩ : Candidate)],
        (experiment_002.update_hud_reticles_cursor_nearest
            [⟨2, some ⟨0, 0⟩, some ⟨⟨3, 4⟩, 5⟩, 7⟩]).cursor_nearest_entity = some c.entity ∧
        c.world_to_viewport.isSome = true ∧
        ∃ p, c.overlay = some p ∧
          (experiment_002.update_hud_reticles_cursor_nearest
            [⟨2, some ⟨0, 0⟩, some ⟨⟨3, 4⟩, 5⟩, 7⟩]).cursor_nearest_len = p.len) ∧
    (∀ c ∈ [(⟨2, some ⟨0, 0⟩, some ⟨⟨3, 4⟩, 5⟩, 7⟩ : Candidate)],
        c.world_to_viewport.isSome = true →
        ∀ p, c.overlay = some p →
          (experiment_002.update_hud_reticles_cursor_nearest
            [⟨2, some ⟨0, 0⟩, some ⟨⟨3, 4⟩, 5⟩, 7⟩]).cursor_nearest_len ≤ p.len) ∧
    (∃ c ∈ [(⟨2, some ⟨0, 0⟩, some ⟨⟨3, 4⟩, 5⟩, 7⟩ : Candidate)],
        (experiment_003.update_targeting_overlay_cursor_nearest
            [⟨2, some ⟨0, 0⟩, some ⟨⟨3, 4⟩, 5⟩, 7⟩]).cursor_nearest_entity = some c.entity ∧
        c.world_to_viewport.isSome = true ∧
        ∃ p, c.overlay = some p ∧
          (experiment_003.update_targeting_overlay_cursor_nearest
            [⟨2, some ⟨0, 0⟩, some ⟨⟨3, 4⟩, 5⟩, 7⟩]).cursor_nearest_len = p.len) ∧
    (∀ c ∈ [(⟨2, some ⟨0, 0⟩, some ⟨⟨3, 4⟩, 5⟩, 7⟩ : Candidate)],
        c.world_to_viewport.isSome = true →
        ∀ p, c.overlay = some p →
          (experiment_003.update_targeting_overlay_cursor_nearest
            [⟨2, some ⟨0, 0⟩, some ⟨⟨3, 4⟩, 5⟩, 7⟩]).cursor_nearest_len < p.len + 3) :=
  claim_C1_amended [⟨2, some ⟨0, 0⟩, some ⟨⟨3, 4⟩, 5⟩, 7⟩] witness_onscreen002 witness_onscreen003

/-- Counterexample for C1 as stated: in experiment_003 a first candidate
of distance 10 and size 5 stays selected over a second candidate of
distance 8 and size 1 (the difference -2 is within the 3.0 band and the
size is smaller), so the selected candidate does not have the smallest
distance to the screen centre. -/
theorem claim_C1_counterexample :
    (experiment_003.update_targeting_overlay_cursor_nearest
        [⟨0, some ⟨0, 0⟩, some ⟨⟨10, 0⟩, 10⟩, 5⟩,
         ⟨1, some ⟨0, 0⟩, some ⟨⟨8, 0⟩, 8⟩, 1⟩]).cursor_nearest_entity = some 0 ∧
    (experiment_003.update_targeting_overlay_cursor_nearest
        [⟨0, some ⟨0, 0⟩, some ⟨⟨10, 0⟩, 10⟩, 5⟩,
         ⟨1, some ⟨0, 0⟩, some ⟨⟨8, 0⟩, 8⟩, 1⟩]).cursor_nearest_len = 10 ∧
    ((⟨1, some ⟨0, 0⟩, some ⟨⟨8, 0⟩, 8⟩, 1⟩ : Candidate)).world_to_viewport.isSome = true ∧
    ((⟨1, some ⟨0, 0⟩, some ⟨⟨8, 0⟩, 8⟩, 1⟩ : Candidate)).overlay = some ⟨⟨8, 0⟩, 8⟩ ∧
    ¬((10 : ℚ) ≤ 8) := by
  norm_num [experiment_003.update_targeting_overlay_cursor_nearest,
    experiment_003.cursor_nearest_step, cursor_nearest_initial_len, List.foldl]

set_option maxHeartbeats 2000000 in
/-- C2 (corrected): in experiment_003 the target-object reticle and the
target label are Visible and the reticle is placed at the 2-D overlay
position exactly when world_to_viewport returns Some, the viewport
position lies inside the 2-D viewport rect, and viewport_to_world_2d
returns Some, and otherwise they are Hidden with the transform untouched;
in experiment_002, however, the crosshair is Visible exactly when
world_to_viewport returns Some and the position is inside the rect,
regardless of whether viewport_to_world_2d succeeds (when it fails the
crosshair stays Visible with its transform untouched). -/
theorem claim_C2_amended (rect : Rect) (w2v v2w : Option Vec2) :
    ((experiment_003.update_targeting_overlay_target_reticle rect w2v v2w).target_visibility
        = Visibility.Visible
      ↔ ∃ vp, w2v = some vp ∧ rect.contains vp = true ∧ v2w.isSome = true) ∧
    ((experiment_003.update_targeting_overlay_target_reticle rect w2v v2w).label_visibility
      = (experiment_003.update_targeting_overlay_target_reticle rect w2v v2w).target_visibility) ∧
    (((experiment_003.update_targeting_overlay_target_reticle rect w2v v2w).target_visibility
          = Visibility.Visible ∧
        (experiment_003.update_targeting_overlay_target_reticle rect w2v v2w).translation = v2w) ∨
      ((experiment_003.update_targeting_overlay_target_reticle rect w2v v2w).target_visibility
          = Visibility.Hidden ∧
        (experiment_003.update_targeting_overlay_target_reticle rect w2v v2w).translation
          = none)) ∧
    ((experiment_002.update_hud_reticles_target_reticle rect w2v v2w).visibility
        = Visibility.Visible
      ↔ ∃ vp, w2v = some vp ∧ rect.contains vp = true) ∧
    (((experiment_002.update_hud_reticles_target_reticle rect w2v v2w).visibility
          = Visibility.Visible ∧
        (experiment_002.update_hud_reticles_target_reticle rect w2v v2w).translation = v2w) ∨
      ((experiment_002.update_hud_reticles_target_reticle rect w2v v2w).visibility
          = Visibility.Hidden ∧
        (experiment_002.update_hud_reticles_target_reticle rect w2v v2w).translation
          = none)) := by
  rcases w2v with _ | vp
  · simp [experiment_003.update_targeting_overlay_target_reticle,
      experiment_002.update_hud_reticles_target_reticle]
  · rcases v2w with _ | op <;>
      rcases hc : rect.contains vp with _ | _ <;>
        simp [experiment_003.update_targeting_overlay_target_reticle,
          experiment_002.update_hud_reticles_target_reticle, hc]

/-- Counterexample for C2 as stated: with the viewport position inside the
rect but viewport_to_world_2d returning None, experiment_002 sets the
target-object crosshair Visible, while the claim demands Hidden. -/
theorem claim_C2_counterexample :
    Rect.contains ⟨⟨0, 0⟩, ⟨100, 100⟩⟩ ⟨50, 50⟩ = true ∧
    (experiment_002.update_hud_reticles_target_reticle ⟨⟨0, 0⟩, ⟨100, 100⟩⟩ (some ⟨50, 50⟩)
        none).visibility = Visibility.Visible ∧
    Visibility.Visible ≠ Visibility.Hidden := by decide

/-- C4 (corrected): the two target-reticle computations assign the same
visibility on every input except the one where the target projects inside
the viewport rect and viewport_to_world_2d fails: there experiment_002
shows the reticle and experiment_003 hides it. -/
theorem claim_C4_amended (rect : Rect) (w2v v2w : Option Vec2)
    (h : ∀ vp, w2v = some vp → rect.contains vp = true → v2w ≠ none) :
    (experiment_002.update_hud_reticles_target_reticle rect w2v v2w).visibility =
      (experiment_003.update_targeting_overlay_target_reticle rect w2v v2w).target_visibility := by
  rcases w2v with _ | vp
  · rfl
  · rcases v2w with _ | op
    · rcases hc : rect.contains vp with _ | _
      · simp [experiment_002.update_hud_reticles_target_reticle,
          experiment_003.update_targeting_overlay_target_reticle, hc]
      · exact absurd rfl (h vp rfl hc)
    · rcases hc : rect.contains vp with _ | _ <;>
        simp [experiment_002.update_hud_reticles_target_reticle,
          experiment_003.update_targeting_overlay_target_reticle, hc]

/-- Witness for C4 at a concrete onscreen input: both experiments show
the reticle. -/
theorem claim_C4_witness :
    (experiment_002.update_hud_reticles_target_reticle ⟨⟨0, 0⟩, ⟨100, 100⟩⟩ (some ⟨50, 50⟩)
        (some ⟨1, 2⟩)).visibility =
      (experiment_003.update_targeting_overlay_target_reticle ⟨⟨0, 0⟩, ⟨100, 100⟩⟩
        (some ⟨50, 50⟩) (some ⟨1, 2⟩)).target_visibility :=
  claim_C4_amended ⟨⟨0, 0⟩, ⟨100, 100⟩⟩ (some ⟨50, 50⟩) (some ⟨1, 2⟩) (fun _ _ _ => by simp)

/-- Counterexample for C4 as stated: on the inside-rect, conversion-fails
input the two experiments assign different visibilities. -/
theorem claim_C4_counterexample :
    (experiment_002.update_hud_reticles_target_reticle ⟨⟨0, 0⟩, ⟨100, 100⟩⟩ (some ⟨50, 50⟩)
        none).visibility = Visibility.Visible ∧
    (experiment_003.update_targeting_overlay_target_reticle ⟨⟨0, 0⟩, ⟨100, 100⟩⟩ (some ⟨50, 50⟩)
        none).target_visibility = Visibility.Hidden ∧
    Visibility.Visible ≠ Visibility.Hidden := by decide

/-- C3 (confirmed): in experiment_003, when no ValidTarget candidate
projects on-screen, a just-pressed Enter stores None in
TargetResource.target, and both ui_text_update and focus_on_target reach
the todo!() of their None match arm, which panics. -/
theorem claim_C3 (cs : List Candidate) (r : Rect) (old : Option ℕ)
    (component_info : ℕ → Option String)
    (h : ∀ c ∈ cs, c.world_to_viewport = none) :
    experiment_003.update_targeting_overlay_new_target (some r) true
        (experiment_003.update_targeting_overlay_cursor_nearest cs).cursor_nearest_entity old
      = none ∧
    experiment_003.ui_text_update_tracking
        (experiment_003.update_targeting_overlay_new_target (some r) true
          (experiment_003.update_targeting_overlay_cursor_nearest cs).cursor_nearest_entity old)
        component_info = Except.error () ∧
    experiment_003.focus_on_target_step
        (experiment_003.update_targeting_overlay_new_target (some r) true
          (experiment_003.update_targeting_overlay_cursor_nearest cs).cursor_nearest_entity old)
      = Except.error () := by
  have h0 : experiment_003.update_targeting_overlay_cursor_nearest cs
      = ⟨false, cursor_nearest_initial, cursor_nearest_initial_len, none, 0⟩ :=
    foldl003_unprojected cs _ h
  have hsel : (experiment_003.update_targeting_overlay_cursor_nearest cs).cursor_nearest_entity
      = none := by
    rw [h0]
  have hnew : experiment_003.update_targeting_overlay_new_target (some r) true
      (experiment_003.update_targeting_overlay_cursor_nearest cs).cursor_nearest_entity old
        = none := by
    rw [hsel]
    rfl
  refine ⟨hnew, ?_, ?_⟩ <;> rw [hnew] <;> rfl

/-- Witness for C3 at a collection with one candidate that is behind the
camera (world_to_viewport = none). -/
theorem claim_C3_witness :
    experiment_003.update_targeting_overlay_new_target (some ⟨⟨0, 0⟩, ⟨100, 100⟩⟩) true
        (experiment_003.update_targeting_overlay_cursor_nearest
          [⟨7, none, none, 1⟩]).cursor_nearest_entity (some 3)
      = none ∧
    experiment_003.ui_text_update_tracking
        (experiment_003.update_targeting_overlay_new_target (some ⟨⟨0, 0⟩, ⟨100, 100⟩⟩) true
          (experiment_003.update_targeting_overlay_cursor_nearest
            [⟨7, none, none, 1⟩]).cursor_nearest_entity (some 3))
        (fun _ => none) = Except.error () ∧
    experiment_003.focus_on_target_step
        (experiment_003.update_targeting_overlay_new_target (some ⟨⟨0, 0⟩, ⟨100, 100⟩⟩) true
          (experiment_003.update_targeting_overlay_cursor_nearest
            [⟨7, none, none, 1⟩]).cursor_nearest_entity (some 3))
      = Except.error () :=
  claim_C3 [⟨7, none, none, 1⟩] ⟨⟨0, 0⟩, ⟨100, 100⟩⟩ (some 3) (fun _ => none) (by decide)

/-- C5 (confirmed, big_space modelled from the spec): splitting any
translation into a grid cell and a local offset and recombining them with
grid_position_double returns the original translation; in particular every
large-world spawn of experiments 002 and 003 recombines to its intended
world translation, and the combined position shown by update_ui_text is
exactly grid_position_double of the floating-origin cell and transform. -/
theorem claim_C5 :
    (∀ (edge : ℚ) (t : Vec3q),
        big_space.grid_position_double edge (big_space.translation_to_grid edge t).1
          (big_space.translation_to_grid edge t).2 = t) ∧
    (∀ edge : ℚ,
        (experiment_003.setup_grid_spawned edge).map
            (fun e => (e.1, big_space.grid_position_double edge e.2.1 e.2.2)) =
          experiment_003.setup_grid_spawns) ∧
    (∀ edge : ℚ,
        (experiment_002.grid_spawned edge).map
            (fun e => (e.1, big_space.grid_position_double edge e.2.1 e.2.2)) =
          experiment_002.grid_spawns) ∧
    (∀ (cell : big_space.GridCell) (translation : Vec3q),
        experiment_002.update_ui_text_real_position cell translation =
          big_space.grid_position_double big_space.cell_edge_length cell translation) := by
  refine ⟨grid_roundtrip, ?_, ?_, fun _ _ => rfl⟩
  · intro edge
    simp [experiment_003.setup_grid_spawned, experiment_003.setup_grid_spawns, grid_roundtrip]
  · intro edge
    simp [experiment_002.grid_spawned, experiment_002.grid_spawns, grid_roundtrip]

/-- C6 (corrected): when the 2-D camera reports a viewport rect (and, in
experiment_002, the engine reports a nearest object with a resolvable
transform), a just-pressed Enter sets the target to the cursor-nearest
candidate of the frame (in experiment_002 under NavTargetMode.Cursor; under
NavTargetMode.Nearest to the engine-reported nearest object), and without
an Enter press the target is left unchanged; when those early-return
conditions fail, the Enter press is ignored and the target is also left
unchanged. -/
theorem claim_C6_amended : ∀ (r : Rect) (n : ℕ) (mode : experiment_002.NavTargetMode)
    (enter : Bool) (sel old : Option ℕ),
    experiment_003.update_targeting_overlay_new_target (some r) enter sel old
        = (if enter then sel else old) ∧
    experiment_002.update_hud_reticles_new_target (some r) (some n) mode enter sel old
        = (if enter then
            (match mode with
             | experiment_002.NavTargetMode.Nearest => some n
             | experiment_002.NavTargetMode.Cursor => sel)
           else old) ∧
    experiment_003.update_targeting_overlay_new_target none enter sel old = old ∧
    experiment_002.update_hud_reticles_new_target none (some n) mode enter sel old = old ∧
    experiment_002.update_hud_reticles_new_target (some r) none mode enter sel old = old := by
  intro r n mode enter sel old
  exact ⟨rfl, rfl, rfl, rfl, rfl⟩

/-- Counterexample for C6 as stated: a frame in which Enter is just
pressed while the 2-D camera reports no logical viewport rect leaves the
target unchanged instead of storing the cursor-nearest candidate, and in
experiment_002 the same happens when no nearest object is reported. -/
theorem claim_C6_counterexample :
    experiment_003.update_targeting_overlay_new_target none true (some 5) none = none ∧
    experiment_002.update_hud_reticles_new_target (some ⟨⟨0, 0⟩, ⟨100, 100⟩⟩) none
        experiment_002.NavTargetMode.Cursor true (some 5) none = none ∧
    (none : Option ℕ) ≠ some 5 := by decide

/-- C7 (confirmed): in both experiments a just-pressed Escape sends
AppExit exactly when the cursor grab mode seen by the Escape branch is
already None (when a simultaneous left click grabbed the cursor first, no
exit is sent), and the same press always sets the grab mode to None, makes
the cursor visible, and disables the camera default inputs; without an
Escape press no exit is sent.  In particular an Escape pressed while the
cursor is grabbed never exits and releases the cursor instead. -/
theorem claim_C7 : ∀ (w : WindowCursorState) (defaults_disabled left : Bool),
    ((experiment_002.miscellaneous_input_handling_cursor left true w
        defaults_disabled).exit_sent
      = (!left && decide (w.grab_mode = CursorGrabMode.None))) ∧
    (experiment_002.miscellaneous_input_handling_cursor left true w defaults_disabled).cursor
      = ⟨CursorGrabMode.None, true⟩ ∧
    (experiment_002.miscellaneous_input_handling_cursor left true w
        defaults_disabled).defaults_disabled = true ∧
    (experiment_002.miscellaneous_input_handling_cursor left false w
        defaults_disabled).exit_sent = false ∧
    ((experiment_003.input_handling_cursor left true w defaults_disabled).exit_sent
      = (!left && decide (w.grab_mode = CursorGrabMode.None))) ∧
    (experiment_003.input_handling_cursor left true w defaults_disabled).cursor
      = ⟨CursorGrabMode.None, true⟩ ∧
    (experiment_003.input_handling_cursor left true w defaults_disabled).defaults_disabled
      = true ∧
    (experiment_003.input_handling_cursor left false w defaults_disabled).exit_sent = false := by
  intro w dd left
  rcases w with ⟨g, v⟩
  cases g <;> cases left <;> cases v <;> cases dd <;> decide

/-- C8 (confirmed): in both HUD text systems the displayed speed is the
length of the camera controller velocity divided by the frame delta
seconds, and it is rendered as a multiple of the speed of light exactly
when it exceeds 3.0e8, in which case the displayed number is the speed
divided by 3.0e8, and in m/s otherwise. -/
theorem claim_C8 : ∀ velocity_length delta_seconds : ℚ,
    ((experiment_003.ui_text_update_speed_text velocity_length delta_seconds).light_units
      = decide (velocity_length / delta_seconds > 300000000)) ∧
    ((experiment_003.ui_text_update_speed_text velocity_length delta_seconds).displayed
      = if velocity_length / delta_seconds > 300000000
        then velocity_length / delta_seconds / 300000000
        else velocity_length / delta_seconds) ∧
    ((experiment_002.update_ui_text_speed_text velocity_length delta_seconds).light_units
      = decide (velocity_length / delta_seconds > 300000000)) ∧
    ((experiment_002.update_ui_text_speed_text velocity_length delta_seconds).displayed
      = if velocity_length / delta_seconds > 300000000
        then velocity_length / delta_seconds / 300000000
        else velocity_length / delta_seconds) := by
  intro v d
  by_cases h : v / d > 300000000 <;>
    simp [experiment_003.ui_text_update_speed_text, experiment_002.update_ui_text_speed_text, h]

/-- C9 (corrected): every experiment spawns planets during its
startup/spawning phase, but satellites are spawned only by experiment_002
(the two cube sats) and a command pod only by experiment_001 (which also
spawns the torus chain); experiment_003 spawns neither satellites nor a
command pod. -/
theorem claim_C9_amended :
    (∃ o ∈ experiment_001.initiate_spawning_objects, o.kind = SpawnKind.planet) ∧
    (∃ o ∈ experiment_001.initiate_spawning_objects, o.kind = SpawnKind.commandPod) ∧
    (∃ o ∈ experiment_001.initiate_spawning_objects, o.kind = SpawnKind.torusLink) ∧
    (∀ o ∈ experiment_001.initiate_spawning_objects, o.kind ≠ SpawnKind.satellite) ∧
    (∃ o ∈ experiment_002.general_setup_objects, o.kind = SpawnKind.planet) ∧
    (∃ o ∈ experiment_002.general_setup_objects, o.kind = SpawnKind.satellite) ∧
    (∀ o ∈ experiment_002.general_setup_objects, o.kind ≠ SpawnKind.commandPod) ∧
    (∃ o ∈ experiment_003.setup_objects, o.kind = SpawnKind.planet) ∧
    (∃ o ∈ experiment_003.setup_objects, o.kind = SpawnKind.star) ∧
    (∀ o ∈ experiment_003.setup_objects, o.kind ≠ SpawnKind.satellite) ∧
    (∀ o ∈ experiment_003.setup_objects, o.kind ≠ SpawnKind.commandPod) := by
  decide

/-- Counterexample for C9 as stated: experiment_002 spawns no command pod
at all, and experiment_003 spawns neither a command pod nor satellites. -/
theorem claim_C9_counterexample :
    (∀ o ∈ experiment_002.general_setup_objects, o.kind ≠ SpawnKind.commandPod) ∧
    (∀ o ∈ experiment_003.setup_objects, o.kind ≠ SpawnKind.commandPod) ∧
    (∀ o ∈ experiment_003.setup_objects, o.kind ≠ SpawnKind.satellite) := by
  decide

lemma fov_one_lower : experiment_001.CAMERA_ZOOM_MAXIMUM ≤ (1 : ℚ) := by
  norm_num [experiment_001.CAMERA_ZOOM_MAXIMUM, experiment_001.PI]

lemma fov_one_upper : (1 : ℚ) ≤ experiment_001.CAMERA_ZOOM_MINIMUM := by
  norm_num [experiment_001.CAMERA_ZOOM_MINIMUM, experiment_001.PI]

/-- C10 (confirmed): the perspective fov of experiment_001 stays in the
closed interval from CAMERA_ZOOM_MAXIMUM (PI/1000) to CAMERA_ZOOM_MINIMUM
(PI/2): the engine default PI/4 lies inside, the middle mouse button
writes PI/4, and every mouse-wheel step multiplies or divides by
CAMERA_ZOOM_SPEED and then clamps back into the interval, so every run of
camera_controls preserves the invariant. -/
theorem claim_C10 (middle_pressed : Bool) (wheel_events : List ℚ) (fov : ℚ)
    (h1 : experiment_001.CAMERA_ZOOM_MAXIMUM ≤ fov)
    (h2 : fov ≤ experiment_001.CAMERA_ZOOM_MINIMUM) :
    experiment_001.CAMERA_ZOOM_MAXIMUM ≤
        experiment_001.camera_controls_fov middle_pressed wheel_events fov ∧
      experiment_001.camera_controls_fov middle_pressed wheel_events fov ≤
        experiment_001.CAMERA_ZOOM_MINIMUM ∧
      experiment_001.CAMERA_ZOOM_MAXIMUM ≤ experiment_001.default_fov ∧
      experiment_001.default_fov ≤ experiment_001.CAMERA_ZOOM_MINIMUM := by
  have hd1 : experiment_001.CAMERA_ZOOM_MAXIMUM ≤ experiment_001.PI / 4 := by
    norm_num [experiment_001.CAMERA_ZOOM_MAXIMUM, experiment_001.PI]
  have hd2 : experiment_001.PI / 4 ≤ experiment_001.CAMERA_ZOOM_MINIMUM := by
    norm_num [experiment_001.CAMERA_ZOOM_MINIMUM, experiment_001.PI]
  have hinit1 : experiment_001.CAMERA_ZOOM_MAXIMUM ≤
      (if middle_pressed then experiment_001.PI / 4 else fov) := by
    cases middle_pressed
    · simpa using h1
    · simpa using hd1
  have hinit2 : (if middle_pressed then experiment_001.PI / 4 else fov) ≤
      experiment_001.CAMERA_ZOOM_MINIMUM := by
    cases middle_pressed
    · simpa using h2
    · simpa using hd2
  have h := camera_controls_fov_foldl_mem wheel_events _ hinit1 hinit2
  exact ⟨h.1, h.2, hd1, hd2⟩

/-- Witness for C10 at a concrete run: middle button not pressed, one
wheel-down event, fov = 1. -/
theorem claim_C10_witness :
    experiment_001.CAMERA_ZOOM_MAXIMUM ≤ experiment_001.camera_controls_fov false [-1] 1 ∧
      experiment_001.camera_controls_fov false [-1] 1 ≤ experiment_001.CAMERA_ZOOM_MINIMUM ∧
      experiment_001.CAMERA_ZOOM_MAXIMUM ≤ experiment_001.default_fov ∧
      experiment_001.default_fov ≤ experiment_001.CAMERA_ZOOM_MINIMUM :=
  claim_C10 false [-1] 1 fov_one_lower fov_one_upper
